import Mathlib

/-!
Shallow embedding of the Network-Simulation repository (C++): the `Packet`
value type and the `Node` operations `send`, `receive`, `processPackets`
and `stop`, from `src/main.cpp` and `src/unnamed/part_001`.

Conventions of the embedding:
- Console output lines are modelled as abstract `Event` values; the exact
  formatting of a line is irrelevant, only which event is emitted with
  which fields.
- The shared `std::mt19937` entropy stream is modelled by passing the
  sampled uniform [0,1) values explicitly as rationals (`ℚ`); the network
  delay sample has no observable effect and is omitted.
- C++ exceptions are modelled with `Except String`, the carried string
  being the exception's `what()` message.
- The receiver's behaviour seen by `send` (success, or a thrown exception
  per attempt) is abstracted as an oracle `Nat → Option String` giving the
  error message of attempt `n` (0-based), `none` meaning success.
-/

inductive PacketType
  | DATA
  | ACK
deriving DecidableEq, Repr

structure Packet where
  data : String
  sequenceNumber : Int
  type : PacketType
deriving DecidableEq, Repr

/-- One observable console event, as emitted by the C++ `cout` blocks. -/
inductive Event
  | sending (sender : String) (p : Packet) (receiver : String) (attempt : Nat)
  | failedAttempt (sender : String) (receiver : String) (msg : String)
  | failedAfter (sender : String) (seq : Int) (receiver : String) (attempts : Nat)
  | dropped (node : String) (p : Packet)
  | receivedCorrupted (node : String) (p : Packet)
  | received (node : String) (p : Packet)
  | processing (node : String) (p : Packet)
  | processError (node : String) (msg : String)
  | stopping (node : String)
deriving DecidableEq, Repr

/-- `Node::MAX_RETRIES` from the source. -/
def MAX_RETRIES : Nat := 3

/-- The `what()` message of the `std::runtime_error` thrown by `Node::send`
when all retries are exhausted; the spec calls this error kind
`DeliveryExhausted`. -/
def deliveryExhaustedMsg : String := "Failed to send packet after maximum retries"

/-- The retry loop body of `Node::send`: `retryCount` is the current value of
the C++ counter, `remaining = MAX_RETRIES - retryCount` drives the
recursion. `recv n` is the outcome of `receiver.receive` on attempt `n`
(`none` = returned normally, `some msg` = threw an exception with message
`msg`). Returns the events `send` itself emits and its result. -/
def sendAux (sname rname : String) (packet : Packet) (recv : Nat → Option String) :
    Nat → Nat → List Event × Except String Unit
  | _retryCount, 0 =>
      ([Event.failedAfter sname packet.sequenceNumber rname MAX_RETRIES],
       Except.error deliveryExhaustedMsg)
  | retryCount, n+1 =>
      match recv retryCount with
      | none => ([Event.sending sname packet rname (retryCount+1)], Except.ok ())
      | some msg =>
          (Event.sending sname packet rname (retryCount+1) ::
             Event.failedAttempt sname rname msg ::
             (sendAux sname rname packet recv (retryCount+1) n).1,
           (sendAux sname rname packet recv (retryCount+1) n).2)

/-- `Node::send(packet, receiver)`: starts with `retryCount = 0` and loops
while `retryCount < MAX_RETRIES`. -/
def send (sname rname : String) (packet : Packet) (recv : Nat → Option String) :
    List Event × Except String Unit :=
  sendAux sname rname packet recv 0 MAX_RETRIES

/-- Loss probability of `Node::receive` in `src/unnamed/part_001`:
`lossProbability(gen) < 0.1`. -/
def LOSS_PROB : ℚ := 1/10

/-- Corruption probability of `Node::receive` in `src/unnamed/part_001`:
`corruptionProbability(gen) < 0.05`. -/
def CORRUPTION_PROB : ℚ := 1/20

/-- The observable outcome of one `Node::receive` call: the packet pushed
into the node's inbound buffer (if any), the events the call emits itself,
and the ACK packet handed to the nested `send` (if any). -/
structure ReceiveResult where
  enqueued : Option Packet
  events : List Event
  ackSent : Option Packet
deriving DecidableEq, Repr

/-- `Node::receive(packet, sender)` from `src/unnamed/part_001`: sample
loss (drop below `0.1`), then corruption (payload becomes `"CORRUPTED"`
below `0.05`), push the (possibly corrupted) packet, emit the events, and
for a DATA packet construct the ACK handed to the nested `send`. `loss` and
`corr` are the two uniform [0,1) samples drawn from `gen`, in order. -/
def receive (name : String) (packet : Packet) (loss corr : ℚ) : ReceiveResult :=
  if loss < LOSS_PROB then
    { enqueued := none, events := [Event.dropped name packet], ackSent := none }
  else
    let receivedPacket : Packet :=
      if corr < CORRUPTION_PROB then { packet with data := "CORRUPTED" } else packet
    { enqueued := some receivedPacket,
      events :=
        (if corr < CORRUPTION_PROB then [Event.receivedCorrupted name receivedPacket]
         else []) ++ [Event.received name receivedPacket],
      ackSent :=
        if receivedPacket.type = PacketType.DATA then
          some { data := "ACK", sequenceNumber := receivedPacket.sequenceNumber,
                 type := PacketType.ACK }
        else none }

/-- `Node::receive(packet, sender)` from `src/main.cpp`: no loss or
corruption sampling; push the packet as-is, emit the received event, and
for a DATA packet construct the ACK handed to the nested `send`. -/
def mainReceive (name : String) (packet : Packet) : ReceiveResult :=
  { enqueued := some packet,
    events := [Event.received name packet],
    ackSent :=
      if packet.type = PacketType.DATA then
        some { data := "ACK", sequenceNumber := packet.sequenceNumber,
               type := PacketType.ACK }
      else none }

/-- `Node::receive` of `src/unnamed/part_001` together with the outcome of
the nested `send(ackPacket, sender)`. `ackSend a` is the result of that
nested send on the ACK packet `a`. In the source the nested send is NOT
wrapped in a try/catch, so an exception it throws propagates out of
`receive`; this definition reflects that by returning the error as
`receive`'s own result. -/
def receiveWithAck (name : String) (packet : Packet) (loss corr : ℚ)
    (ackSend : Packet → Except String Unit) : Except String ReceiveResult :=
  let r := receive name packet loss corr
  match r.ackSent with
  | none => Except.ok r
  | some a =>
      match ackSend a with
      | Except.ok _ => Except.ok r
      | Except.error e => Except.error e

/-- Bridge from a `receive` outcome to the per-attempt oracle seen by
`send`: `send` retries exactly when `receive` threw. -/
def toSendOutcome : Except String ReceiveResult → Option String
  | Except.ok _ => none
  | Except.error e => some e

/-- The mutable node state the `processPackets` loop and `stop` act on:
the `running` flag and the inbound `buffer` queue (front of the list =
front of the `std::queue`). -/
structure LoopState where
  running : Bool
  buffer : List Packet
deriving DecidableEq, Repr

/-- `Node::stop()`: set `running` to `false` (the `notify_all` has no
observable effect beyond waking the loop, which the loop model reads from
the state directly). -/
def stop (s : LoopState) : LoopState :=
  { running := false, buffer := s.buffer }

/-- An action the environment (a concurrent `receive` or `stop` call)
performs while the processing loop is blocked on the condition variable. -/
inductive EnvAction
  | enqueue (p : Packet)
  | stopNode
deriving DecidableEq, Repr

def applyEnv (s : LoopState) : EnvAction → LoopState
  | EnvAction.enqueue p => { running := s.running, buffer := s.buffer ++ [p] }
  | EnvAction.stopNode => stop s

def applyBatch (s : LoopState) (b : List EnvAction) : LoopState :=
  b.foldl applyEnv s

/-- The inner drain loop of `Node::processPackets`
(`while (!buffer.empty()) { front; pop; print "processing"; }`), with an
oracle `err p` giving the `what()` of the exception thrown while handling
packet `p` (`none` = no exception). Returns the processing events emitted,
the packets still in the buffer, and the escaped exception message if any
(the failing packet was already popped when the exception escaped). -/
def drainLoop (name : String) (err : Packet → Option String) :
    List Packet → List Event × List Packet × Option String
  | [] => ([], [], none)
  | p :: rest =>
      match err p with
      | some msg => ([], rest, some msg)
      | none =>
          ((Event.processing name p) :: (drainLoop name err rest).1,
           (drainLoop name err rest).2.1,
           (drainLoop name err rest).2.2)

/-- `Node::processPackets()`: the outer `while (running)` loop. At each
condition-variable wait point the environment performs the next batch of
`sched`; the loop then wakes when `!buffer.empty() || !running` holds,
breaks out if `!running` (even if the buffer is non-empty), otherwise
drains the buffer; an exception from the drain is caught, reported, and
sets `running := false` when its message is `"Fatal error"`. On exit the
terminal stopping event is emitted. `fuel` bounds the number of
iterations; `none` means the fuel ran out (the loop is still blocked or
running), `some (events, finalState)` a genuine exit. -/
def processPackets (name : String) (err : Packet → Option String) :
    Nat → LoopState → List (List EnvAction) → Option (List Event × LoopState)
  | 0, _, _ => none
  | fuel+1, s, sched =>
      if s.running = false then
        some ([Event.stopping name], s)
      else
        let s1 := applyBatch s (sched.headD [])
        let rest := sched.tailD []
        if s1.running = false then
          some ([Event.stopping name], s1)
        else if s1.buffer.isEmpty then
          processPackets name err fuel s1 rest
        else
          match drainLoop name err s1.buffer with
          | (evs, buf2, none) =>
              match processPackets name err fuel ⟨s1.running, buf2⟩ rest with
              | none => none
              | some (evs2, final) => some (evs ++ evs2, final)
          | (evs, buf2, some msg) =>
              match processPackets name err fuel
                  ⟨if msg = "Fatal error" then false else s1.running, buf2⟩ rest with
              | none => none
              | some (evs2, final) =>
                  some (evs ++ Event.processError name msg :: evs2, final)

/-- The DATA packet used as the concrete input of the witness theorems,
`packet1` of the driver in `main`. -/
def pkt1 : Packet :=
  { data := "Test", sequenceNumber := 1, type := PacketType.DATA }

/-- Claim C1: if the receiver's `receive` fails (throws) on every attempt,
`send` performs exactly 3 attempts, emitting exactly 3 sending/failed-attempt
event pairs, then emits one terminal failed-after-3-attempts event and fails
with the `DeliveryExhausted` error; moreover `DeliveryExhausted` is the only
error kind `send` itself produces, for every receiver behaviour. -/
theorem C1_send_exhaustion (sname rname : String) (p : Packet)
    (recv : Nat → Option String) (m0 m1 m2 : String)
    (h0 : recv 0 = some m0) (h1 : recv 1 = some m1) (h2 : recv 2 = some m2) :
    send sname rname p recv =
      ([Event.sending sname p rname 1, Event.failedAttempt sname rname m0,
        Event.sending sname p rname 2, Event.failedAttempt sname rname m1,
        Event.sending sname p rname 3, Event.failedAttempt sname rname m2,
        Event.failedAfter sname p.sequenceNumber rname 3],
       Except.error deliveryExhaustedMsg)
    ∧ ∀ (recv2 : Nat → Option String) (e : String),
        (send sname rname p recv2).2 = Except.error e → e = deliveryExhaustedMsg := by
  constructor
  · simp [send, sendAux, MAX_RETRIES, h0, h1, h2]
  · intro recv2 e he
    cases hr0 : recv2 0 <;> cases hr1 : recv2 1 <;> cases hr2 : recv2 2 <;>
      simp_all [send, sendAux, MAX_RETRIES]

/-- Witness for C1 at a concrete packet and a receiver failing every
attempt with message "Receive failed". -/
theorem C1_send_exhaustion_witness :
    send "Node A" "Node B" pkt1 (fun _ => some "Receive failed") =
      ([Event.sending "Node A" pkt1 "Node B" 1,
        Event.failedAttempt "Node A" "Node B" "Receive failed",
        Event.sending "Node A" pkt1 "Node B" 2,
        Event.failedAttempt "Node A" "Node B" "Receive failed",
        Event.sending "Node A" pkt1 "Node B" 3,
        Event.failedAttempt "Node A" "Node B" "Receive failed",
        Event.failedAfter "Node A" pkt1.sequenceNumber "Node B" 3],
       Except.error deliveryExhaustedMsg) :=
  (C1_send_exhaustion "Node A" "Node B" pkt1 (fun _ => some "Receive failed")
    "Receive failed" "Receive failed" "Receive failed" rfl rfl rfl).1

/-- Claim C7: against a receiver whose `receive` always completes without
error, `send` returns successfully after exactly one attempt and emits
exactly one sending event. -/
theorem C7_send_succeeds_first_attempt (sname rname : String) (p : Packet)
    (recv : Nat → Option String) (h : ∀ n, recv n = none) :
    send sname rname p recv = ([Event.sending sname p rname 1], Except.ok ()) := by
  simp [send, sendAux, MAX_RETRIES, h 0]

/-- Witness for C7 at a concrete packet and an always-succeeding receiver. -/
theorem C7_send_succeeds_first_attempt_witness :
    send "Node A" "Node B" pkt1 (fun _ => none) =
      ([Event.sending "Node A" pkt1 "Node B" 1], Except.ok ()) :=
  C7_send_succeeds_first_attempt "Node A" "Node B" pkt1 (fun _ => none)
    (fun _ => rfl)

/-- The second DATA packet of the driver in `main`, used as a concrete
input of witness theorems. -/
def pkt2 : Packet :=
  { data := "Packet", sequenceNumber := 2, type := PacketType.DATA }

/-- Claim C4: when the loss sample falls below 0.10, `receive` emits one
dropped event and returns at once: nothing is enqueued, no ACK is sent,
and the calling `send` sees a normal return, hence reports success after
that single attempt with no retry. -/
theorem C4_loss_silent_to_sender (name sname rname : String) (p : Packet)
    (loss corr : ℚ) (ackSend : Packet → Except String Unit)
    (h : loss < LOSS_PROB) :
    receiveWithAck name p loss corr ackSend =
      Except.ok { enqueued := none, events := [Event.dropped name p], ackSent := none }
    ∧ send sname rname p
        (fun _ => toSendOutcome (receiveWithAck name p loss corr ackSend)) =
        ([Event.sending sname p rname 1], Except.ok ()) := by
  have hr : receiveWithAck name p loss corr ackSend =
      Except.ok { enqueued := none, events := [Event.dropped name p], ackSent := none } := by
    simp [receiveWithAck, receive, h]
  exact ⟨hr, by simp [send, sendAux, MAX_RETRIES, toSendOutcome, hr]⟩

/-- Witness for C4 at loss sample 0 and a concrete DATA packet. -/
theorem C4_loss_silent_to_sender_witness :
    receiveWithAck "Node B" pkt1 0 (1/2) (fun _ => Except.ok ()) =
      Except.ok { enqueued := none, events := [Event.dropped "Node B" pkt1], ackSent := none }
    ∧ send "Node A" "Node B" pkt1
        (fun _ => toSendOutcome (receiveWithAck "Node B" pkt1 0 (1/2) (fun _ => Except.ok ()))) =
        ([Event.sending "Node A" pkt1 "Node B" 1], Except.ok ()) :=
  C4_loss_silent_to_sender "Node B" "Node A" "Node B" pkt1 0 (1/2)
    (fun _ => Except.ok ()) (by norm_num [LOSS_PROB])

/-- Claim C5: when the packet is not dropped and the corruption sample
falls below 0.05, the enqueued packet is a new Packet whose payload is the
sentinel "CORRUPTED" with the original sequence number and kind, and
processing continues on it as if valid: it is enqueued, and if it is a
DATA packet the usual ACK (with the original sequence number) is still
constructed. -/
theorem C5_corruption_sentinel (name : String) (p : Packet) (loss corr : ℚ)
    (h1 : ¬ loss < LOSS_PROB) (h2 : corr < CORRUPTION_PROB) :
    (receive name p loss corr).enqueued =
      some { data := "CORRUPTED", sequenceNumber := p.sequenceNumber, type := p.type }
    ∧ (p.type = PacketType.DATA →
        (receive name p loss corr).ackSent =
          some { data := "ACK", sequenceNumber := p.sequenceNumber,
                 type := PacketType.ACK }) := by
  constructor
  · simp [receive, h1, h2]
  · intro hp
    simp [receive, h1, h2, hp]

/-- Witness for C5 at loss sample 1/2, corruption sample 0 and a concrete
DATA packet. -/
theorem C5_corruption_sentinel_witness :
    (receive "Node B" pkt1 (1/2) 0).enqueued =
      some { data := "CORRUPTED", sequenceNumber := pkt1.sequenceNumber, type := pkt1.type }
    ∧ (receive "Node B" pkt1 (1/2) 0).ackSent =
        some { data := "ACK", sequenceNumber := pkt1.sequenceNumber,
               type := PacketType.ACK } := by
  have h := C5_corruption_sentinel "Node B" pkt1 (1/2) 0
    (by norm_num [LOSS_PROB]) (by norm_num [CORRUPTION_PROB])
  exact ⟨h.1, h.2 rfl⟩

/-- Claim C6: an ACK is constructed and handed to the nested send if and
only if the incoming packet's kind is DATA (never in response to an ACK),
and that ACK's sequence number equals the triggering packet's sequence
number; stated for the `src/main.cpp` receive unconditionally and for the
`src/unnamed/part_001` receive on every non-dropped delivery. -/
theorem C6_ack_iff_data (name : String) (p : Packet) (loss corr : ℚ) :
    (mainReceive name p).ackSent =
      (if p.type = PacketType.DATA then
        some { data := "ACK", sequenceNumber := p.sequenceNumber, type := PacketType.ACK }
       else none)
    ∧ (¬ loss < LOSS_PROB →
        (receive name p loss corr).ackSent =
          (if p.type = PacketType.DATA then
            some { data := "ACK", sequenceNumber := p.sequenceNumber, type := PacketType.ACK }
           else none)) := by
  constructor
  · simp [mainReceive]
  · intro h1
    by_cases hc : corr < CORRUPTION_PROB <;> simp [receive, h1, hc]

/-- Witness for C6 at a concrete DATA packet and non-dropping samples. -/
theorem C6_ack_iff_data_witness :
    (mainReceive "Node B" pkt1).ackSent =
      some { data := "ACK", sequenceNumber := 1, type := PacketType.ACK }
    ∧ (receive "Node B" pkt1 (1/2) (1/2)).ackSent =
        some { data := "ACK", sequenceNumber := 1, type := PacketType.ACK } := by
  have h := C6_ack_iff_data "Node B" pkt1 (1/2) (1/2)
  have h2 := h.2 (by norm_num [LOSS_PROB])
  refine ⟨?_, ?_⟩
  · rw [h.1]; simp [pkt1]
  · rw [h2]; simp [pkt1]

/-- Claim C2, counterexample: `receive` (part_001, `src/main.cpp` is the
same on this path) does NOT catch an error from the nested ACK send: with
non-faulty samples and a nested send that fails, the error propagates out
of `receive` to its caller, so `receive`'s success status is not
independent of the ACK transmission outcome. -/
theorem C2_counterexample :
    receiveWithAck "Node B" pkt1 (1/2) (1/2)
        (fun _ => Except.error deliveryExhaustedMsg) =
      Except.error deliveryExhaustedMsg := by
  norm_num [receiveWithAck, receive, pkt1, LOSS_PROB, CORRUPTION_PROB]

/-- Claim C2 as amended: `receive` itself raises no error of its own — it
returns normally whenever no ACK send is attempted or the nested ACK send
succeeds — but an error from the nested ACK send propagates unchanged to
`receive`'s caller (there is no local handler in the source). -/
theorem C2_ack_error_propagates (name : String) (p : Packet) (loss corr : ℚ)
    (ackSend : Packet → Except String Unit) :
    (∀ e, receiveWithAck name p loss corr ackSend = Except.error e →
        ∃ a, (receive name p loss corr).ackSent = some a ∧ ackSend a = Except.error e)
    ∧ ((∀ a, ackSend a = Except.ok ()) →
        receiveWithAck name p loss corr ackSend =
          Except.ok (receive name p loss corr)) := by
  constructor
  · intro e he
    unfold receiveWithAck at he
    cases hack : (receive name p loss corr).ackSent with
    | none => simp [hack] at he
    | some a =>
        cases hsend : ackSend a with
        | ok u => simp [hack, hsend] at he
        | error e2 =>
            simp [hack, hsend] at he
            subst he
            exact ⟨a, rfl, hsend⟩
  · intro hok
    unfold receiveWithAck
    cases hack : (receive name p loss corr).ackSent with
    | none => simp [hack]
    | some a => simp [hack, hok a]

/-- Witness for the amended C2: with an always-succeeding nested ACK send,
`receive` returns normally. -/
theorem C2_ack_error_propagates_witness :
    receiveWithAck "Node B" pkt1 (1/2) (1/2) (fun _ => Except.ok ()) =
      Except.ok (receive "Node B" pkt1 (1/2) (1/2)) :=
  (C2_ack_error_propagates "Node B" pkt1 (1/2) (1/2)
    (fun _ => Except.ok ())).2 (fun _ => rfl)

/-- Claim C10, counterexample: given the same randomness, the two receive
implementations are NOT observably equivalent: with a loss sample of 1/20
the part_001 receive drops the packet (enqueues nothing) while the
`src/main.cpp` receive (which consumes no randomness) enqueues it. -/
theorem C10_counterexample :
    (receive "Node B" pkt1 (1/20) (1/2)).enqueued = none
    ∧ (mainReceive "Node B" pkt1).enqueued = some pkt1
    ∧ receive "Node B" pkt1 (1/20) (1/2) ≠ mainReceive "Node B" pkt1 := by
  have h1 : (receive "Node B" pkt1 (1/20) (1/2)).enqueued = none := by
    norm_num [receive, LOSS_PROB]
  refine ⟨h1, by simp [mainReceive], fun heq => ?_⟩
  rw [heq] at h1
  simp [mainReceive] at h1

/-- Claim C10 as amended: the two receive implementations agree exactly on
fault-free randomness: whenever the loss sample is at least 0.10 and the
corruption sample at least 0.05, they enqueue the same packet, emit the
same events, and hand the same ACK to the nested send. -/
theorem C10_receive_agree_no_fault (name : String) (p : Packet) (loss corr : ℚ)
    (h1 : ¬ loss < LOSS_PROB) (h2 : ¬ corr < CORRUPTION_PROB) :
    receive name p loss corr = mainReceive name p := by
  simp [receive, mainReceive, h1, h2]

/-- Witness for the amended C10 at fault-free samples 1/2, 1/2. -/
theorem C10_receive_agree_no_fault_witness :
    receive "Node B" pkt1 (1/2) (1/2) = mainReceive "Node B" pkt1 :=
  C10_receive_agree_no_fault "Node B" pkt1 (1/2) (1/2)
    (by norm_num [LOSS_PROB]) (by norm_num [CORRUPTION_PROB])

/-- Claim C3, counterexample: the loop does NOT wait for the queue to
drain: `if (!running) break;` fires even when the buffer is non-empty. If
a packet is enqueued and `stop` is called while the loop is blocked, the
loop wakes, observes `running = false`, and exits emitting only the
stopping event — the packet is still in the queue and never gets a
processing event. -/
theorem C3_counterexample :
    processPackets "Node B" (fun _ => none) 2 ⟨true, []⟩
        [[EnvAction.enqueue pkt1, EnvAction.stopNode]] =
      some ([Event.stopping "Node B"], ⟨false, [pkt1]⟩)
    ∧ Event.processing "Node B" pkt1 ∉ [Event.stopping "Node B"] :=
  ⟨rfl, by simp⟩

/-- Claim C3 as amended: whenever the `processPackets` loop exits, the
running flag is false and the event trace ends with the terminal stopping
event — but the inbound queue may still be non-empty at exit, and packets
left in it get no processing event. -/
theorem C3_exit_only_when_stopped (name : String) (err : Packet → Option String)
    (fuel : Nat) (s : LoopState) (sched : List (List EnvAction))
    (evs : List Event) (final : LoopState)
    (h : processPackets name err fuel s sched = some (evs, final)) :
    final.running = false ∧ ∃ pre, evs = pre ++ [Event.stopping name] := by
  induction fuel generalizing s sched evs final with
  | zero => simp [processPackets] at h
  | succ k ih =>
      simp only [processPackets] at h
      split at h
      · rename_i hr
        simp only [Option.some.injEq, Prod.mk.injEq] at h
        obtain ⟨hev, hfin⟩ := h
        subst hfin
        subst hev
        exact ⟨hr, [], rfl⟩
      · split at h
        · rename_i hr1
          simp only [Option.some.injEq, Prod.mk.injEq] at h
          obtain ⟨hev, hfin⟩ := h
          subst hfin
          subst hev
          exact ⟨hr1, [], rfl⟩
        · split at h
          · exact ih _ _ _ _ h
          · split at h
            · rename_i evs1 buf2 hdrain
              split at h
              · exact absurd h (by simp)
              · rename_i evs2 final2 hrec
                simp only [Option.some.injEq, Prod.mk.injEq] at h
                obtain ⟨hev, hfin⟩ := h
                subst hfin
                subst hev
                obtain ⟨hrun, pre, hpre⟩ := ih _ _ _ _ hrec
                exact ⟨hrun, evs1 ++ pre, by simp [hpre]⟩
            · rename_i evs1 buf2 msg hdrain
              split at h
              · exact absurd h (by simp)
              · rename_i evs2 final2 hrec
                simp only [Option.some.injEq, Prod.mk.injEq] at h
                obtain ⟨hev, hfin⟩ := h
                subst hfin
                subst hev
                obtain ⟨hrun, pre, hpre⟩ := ih _ _ _ _ hrec
                exact ⟨hrun, evs1 ++ Event.processError name msg :: pre,
                  by simp [hpre]⟩

/-- Witness for the amended C3: a loop started on an already-stopped node
exits at once with a stopping event. -/
theorem C3_exit_only_when_stopped_witness :
    (⟨false, []⟩ : LoopState).running = false
    ∧ ∃ pre, [Event.stopping "Node B"] = pre ++ [Event.stopping "Node B"] :=
  C3_exit_only_when_stopped "Node B" (fun _ => none) 1 ⟨false, []⟩ []
    [Event.stopping "Node B"] ⟨false, []⟩ rfl

/-- Claim C8: an error thrown while handling an individual packet is
caught and reported via a processing-error event; if its message is the
sentinel "Fatal error" the loop sets the running flag to false and exits
early (the remaining packet is never processed), otherwise processing
continues with the next packet and the loop only ends later when stop is
called. -/
theorem C8_processing_error_handling (name : String) (p q : Packet) (msg : String)
    (hpq : q ≠ p) :
    processPackets name (fun x => if x = p then some msg else none) 6 ⟨true, []⟩
        [[EnvAction.enqueue p, EnvAction.enqueue q], [], [EnvAction.stopNode]] =
      (if msg = "Fatal error" then
        some ([Event.processError name msg, Event.stopping name], ⟨false, [q]⟩)
       else
        some ([Event.processError name msg, Event.processing name q,
               Event.stopping name], ⟨false, []⟩)) := by
  by_cases hm : msg = "Fatal error" <;>
    simp [processPackets, drainLoop, applyBatch, applyEnv, stop, hpq, hm]

/-- Witness for C8 at concrete packets and the fatal sentinel message. -/
theorem C8_processing_error_handling_witness :
    processPackets "Node B" (fun x => if x = pkt1 then some "Fatal error" else none)
        6 ⟨true, []⟩
        [[EnvAction.enqueue pkt1, EnvAction.enqueue pkt2], [], [EnvAction.stopNode]] =
      some ([Event.processError "Node B" "Fatal error", Event.stopping "Node B"],
        ⟨false, [pkt2]⟩) := by
  have h := C8_processing_error_handling "Node B" pkt1 pkt2 "Fatal error"
    (by simp [pkt1, pkt2])
  simpa using h

/-- Claim C9: `stop` raises no error (it is a total function on the node
state), leaves the running flag false, and is idempotent: any number of
repeated calls equals a single call. -/
theorem C9_stop_idempotent (s : LoopState) (n : Nat) :
    stop (stop s) = stop s ∧ (stop s).running = false ∧
    stop^[n] (stop s) = stop s := by
  refine ⟨rfl, rfl, ?_⟩
  induction n with
  | zero => rfl
  | succ k ih => rw [Function.iterate_succ_apply, show stop (stop s) = stop s from rfl, ih]
